/-
Verification of the narad service layer (Redis cache facade, Kafka broker
dispatcher, coordination primitives, session engine) against its
natural-language specification.

The JavaScript sources are shallowly embedded: every `async` method that can
throw becomes a function into `Except JsError _`; the Redis backing store
becomes an explicit association list of entries with absolute expiry times and
all operations take the current time `t` explicitly; outcomes of calls into
the external clients (network I/O) are passed as parameters.
-/
import Mathlib

set_option autoImplicit false

/-- Kinds of JavaScript errors thrown by the embedded code.  Only the kind is
tracked, not the message text. -/
inductive JsError where
  /-- dereferencing a property of `undefined` (e.g. `config.redis.host`) -/
  | typeError
  /-- the backend is unreachable -/
  | connectionError
  /-- `new Error("Connection timeout")` from the connect race -/
  | timeoutError
  /-- `new Error("Could not acquire lock for resource: ...")` -/
  | lockContentionError
  /-- `new Error("Session not found")` / `new Error("Logout failed: ...")` -/
  | sessionNotFound
  /-- an exception thrown by a user-supplied handler -/
  | handlerError
deriving DecidableEq, Repr

/-- `try { body } catch (e) { handler(e) }` in the `Except` embedding. -/
def jsTry {α : Type} (body : Except JsError α) (handler : JsError → Except JsError α) :
    Except JsError α :=
  match body with
  | .ok v => Except.ok v
  | .error e => handler e

/-- `await client(...)` followed by `return true`: the rejection propagates,
a resolution is discarded. -/
def awaitTrue (client : Except JsError Unit) : Except JsError Bool :=
  match client with
  | .ok _ => .ok true
  | .error e => .error e

namespace RedisService

/-!
Embedding of `src/src/services/redis.js`.  Each facade method takes the
current connection flag `connected` (the `this.isConnected` field) and the
outcome `client` of the underlying `this.client.*` call (`.ok v` if the call
would resolve with `v`, `.error e` if it would reject with `e`).  The method's
own result is `Except JsError _` so that "the method never throws" is a
provable statement rather than a typing artefact.
-/

/-- `RedisService.get(key)`: returns `null` when disconnected or on error. -/
def get (connected : Bool) (client : Except JsError (Option String)) :
    Except JsError (Option String) :=
  jsTry
    (if !connected then .ok none else client)
    (fun _ => .ok none)

/-- `RedisService.set(key, value, options)`: `false` when disconnected or on
error, `true` once the client call resolved. -/
def set (connected : Bool) (client : Except JsError Unit) : Except JsError Bool :=
  jsTry
    (if !connected then .ok false else awaitTrue client)
    (fun _ => .ok false)

/-- `RedisService.del(key)`. -/
def del (connected : Bool) (client : Except JsError Unit) : Except JsError Bool :=
  jsTry
    (if !connected then .ok false else awaitTrue client)
    (fun _ => .ok false)

/-- `RedisService.exists(key)`: the JS method returns `false` when
disconnected or on error but forwards the client's *number* on success, so its
result type is the sum of the two. -/
def existsOp (connected : Bool) (client : Except JsError Nat) :
    Except JsError (Bool ⊕ Nat) :=
  jsTry
    (if !connected then .ok (Sum.inl false)
     else match client with
       | .ok n => .ok (Sum.inr n)
       | .error e => .error e)
    (fun _ => .ok (Sum.inl false))

/-- `RedisService.expire(key, seconds)`. -/
def expire (connected : Bool) (client : Except JsError Unit) : Except JsError Bool :=
  jsTry
    (if !connected then .ok false else awaitTrue client)
    (fun _ => .ok false)

/-- `RedisService.hGet(key, field)`. -/
def hGet (connected : Bool) (client : Except JsError (Option String)) :
    Except JsError (Option String) :=
  jsTry
    (if !connected then .ok none else client)
    (fun _ => .ok none)

/-- `RedisService.hSet(key, field, value)`. -/
def hSet (connected : Bool) (client : Except JsError Unit) : Except JsError Bool :=
  jsTry
    (if !connected then .ok false else awaitTrue client)
    (fun _ => .ok false)

/-- `RedisService.hGetAll(key)`: the empty object `{}` is the empty
association list. -/
def hGetAll (connected : Bool) (client : Except JsError (List (String × String))) :
    Except JsError (List (String × String)) :=
  jsTry
    (if !connected then .ok [] else client)
    (fun _ => .ok [])

end RedisService

/-- `C1`: every Cache Facade operation called while `isConnected = false`
returns its empty/failure sentinel (`null` for `get`/`hGet`, `{}` for
`hGetAll`, `false` for `exists`, `set`, `del`, `expire`, `hSet`), and no
facade operation ever throws, whatever the underlying client call does. -/
theorem C1_facade_disconnected_defaults_and_no_throw
    (cGet cHGet : Except JsError (Option String))
    (cSet cDel cExp cHSet : Except JsError Unit)
    (cEx : Except JsError Nat)
    (cHGA : Except JsError (List (String × String))) :
    RedisService.get false cGet = .ok none ∧
    RedisService.hGet false cHGet = .ok none ∧
    RedisService.hGetAll false cHGA = .ok [] ∧
    RedisService.existsOp false cEx = .ok (Sum.inl false) ∧
    RedisService.set false cSet = .ok false ∧
    RedisService.del false cDel = .ok false ∧
    RedisService.expire false cExp = .ok false ∧
    RedisService.hSet false cHSet = .ok false ∧
    (∀ c : Bool,
      (RedisService.get c cGet).isOk ∧
      (RedisService.hGet c cHGet).isOk ∧
      (RedisService.hGetAll c cHGA).isOk ∧
      (RedisService.existsOp c cEx).isOk ∧
      (RedisService.set c cSet).isOk ∧
      (RedisService.del c cDel).isOk ∧
      (RedisService.expire c cExp).isOk ∧
      (RedisService.hSet c cHSet).isOk) := by
  refine ⟨rfl, rfl, rfl, rfl, rfl, rfl, rfl, rfl, ?_⟩
  intro c
  cases c <;>
    refine ⟨?_, ?_, ?_, ?_, ?_, ?_, ?_, ?_⟩ <;>
    first
      | rfl
      | (cases cGet <;> rfl)
      | (cases cHGet <;> rfl)
      | (cases cHGA <;> rfl)
      | (cases cEx <;> rfl)
      | (cases cSet <;> rfl)
      | (cases cDel <;> rfl)
      | (cases cExp <;> rfl)
      | (cases cHSet <;> rfl)

/-!
## Configuration (`src/src/config/env.js`) and `RedisService.connect`
-/

/-- Redis connection settings, as `src/src/services/redis.js` reads them
(`config.redis.host/port/connectTimeout/tls`). -/
structure RedisConfig where
  host : String
  port : Nat
  connectTimeout : Nat
  tls : Bool
deriving DecidableEq, Repr

/-- The shape of the `config` object exported by `src/src/config/env.js`.
A JavaScript property that the object literal does not define reads as
`undefined`; such a possibly-absent field is an `Option`. -/
structure Config where
  kafkaClientId : String
  kafkaBrokers : List String
  serverPort : Nat
  redis : Option RedisConfig
deriving DecidableEq, Repr

/-- The `config` value that `env.js` actually exports (with default
environment): a `kafka` block, a `server` block, and no `redis` field. -/
def naradConfig : Config :=
  { kafkaClientId := "narad"
    kafkaBrokers := ["localhost:9092"]
    serverPort := 8080
    redis := none }

namespace RedisService

/-- Outcome of the external connection attempt in `connect()`
(the `Promise.race` of `client.connect()` against the 5 s timer, followed by
`client.ping()`): `none` if it resolves, `some e` if it rejects with `e`. -/
abbrev ConnectAttempt := Option JsError

/-- `RedisService.connect()`.  The whole body runs inside `try`:
reading `config.redis.host` on a `config` without a `redis` field throws a
`TypeError` before any network activity; otherwise the connection attempt
either succeeds (the `connect`/`ready` events set `isConnected = true`) or
rejects (the `error` event sets `isConnected = false`).  The `catch` block
absorbs the failure in development mode (`isDev`) and rethrows it otherwise.
The result pairs the call's outcome with the final `isConnected` flag. -/
def connect (cfg : Config) (isDev : Bool) (attempt : ConnectAttempt) :
    Except JsError Unit × Bool :=
  match cfg.redis with
  | none =>
      if isDev then (.ok (), false) else (.error .typeError, false)
  | some _ =>
      match attempt with
      | none => (.ok (), true)
      | some e =>
          if isDev then (.ok (), false) else (.error e, false)

end RedisService

/-- `C9`: the exported configuration has no `redis` field, so `connect()`
always takes its error branch regardless of backend availability: in
development mode it returns normally with `isConnected = false` (permanent
degraded mode), in production mode it throws a `TypeError` (not a connection
error). -/
theorem C9_missing_redis_config_breaks_connect :
    naradConfig.redis = none ∧
    (∀ attempt : RedisService.ConnectAttempt,
      RedisService.connect naradConfig true attempt = (.ok (), false) ∧
      RedisService.connect naradConfig false attempt = (.error .typeError, false)) := by
  refine ⟨rfl, fun attempt => ⟨rfl, rfl⟩⟩

/-- `C2` (code bug witness): production mode with the cache backend
unavailable.  The claim — raise a `ConnectionError`, leave the state
`Disconnected` — matches `connect`'s error branch only when the configuration
carries a `redis` block (third and fourth conjuncts, with an arbitrary
`RedisConfig`); with the configuration the repository actually exports the
raised error is the `TypeError` from `config.redis.host` (first conjunct),
contradicting `docs/REDIS_USAGE.md`, which documents `REDIS_HOST`/`REDIS_PORT`
configuration that `env.js` never defines. -/
theorem C2_prod_connect_raises_typeError_not_connectionError :
    RedisService.connect naradConfig false (some .connectionError) =
      (.error .typeError, false) ∧
    RedisService.connect naradConfig true (some .connectionError) = (.ok (), false) ∧
    (∀ r : RedisConfig,
      RedisService.connect { naradConfig with redis := some r } false
          (some .connectionError) = (.error .connectionError, false) ∧
      RedisService.connect { naradConfig with redis := some r } true
          (some .connectionError) = (.ok (), false)) := by
  exact ⟨rfl, rfl, fun r => ⟨rfl, rfl⟩⟩

/-!
## The cache backing store

Redis itself (as far as the verified code exercises it) is modelled as an
association list from keys to entries carrying an optional absolute expiry
time; every operation takes the current time `t`.  An entry with
`expiresAt = some e` is live at `t` iff `t < e`.
-/

/-- A stored entry: a value plus an optional absolute expiry time. -/
structure Entry (α : Type) where
  value : α
  expiresAt : Option Nat
deriving DecidableEq, Repr

/-- Is the entry live at time `t`? -/
def Entry.live {α : Type} (e : Entry α) (t : Nat) : Bool :=
  match e.expiresAt with
  | none => true
  | some exp => t < exp

/-- The key-value store. -/
abbrev Store (α : Type) := List (String × Entry α)

namespace Store

variable {α : Type}

/-- `GET key` at time `t`: the first entry for the key, if still live.
A present-but-expired entry reads as absent. -/
def getAt (st : Store α) (t : Nat) (k : String) : Option α :=
  match st with
  | [] => none
  | (k', e) :: tl => if k' = k then (if e.live t then some e.value else none) else getAt tl t k

/-- Remove every entry stored under a key. -/
def removeKey (st : Store α) (k : String) : Store α :=
  match st with
  | [] => []
  | p :: tl => if p.1 = k then removeKey tl k else p :: removeKey tl k

/-- `SET key value [EX ttl]` at time `t`: replaces any entry for the key;
a plain `SET` (no `EX`) leaves the new entry persistent. -/
def setAt (st : Store α) (t : Nat) (k : String) (v : α) (ttl : Option Nat) : Store α :=
  (k, ⟨v, ttl.map (t + ·)⟩) :: removeKey st k

/-- `DEL key`. -/
def delKey (st : Store α) (k : String) : Store α :=
  removeKey st k

/-- `SET key value NX EX ttl` at time `t`: writes only when no live entry for
the key is present; returns the updated store and whether the reply was
`'OK'`. -/
def setNX (st : Store α) (t : Nat) (k : String) (v : α) (ttl : Nat) :
    Store α × Bool :=
  match getAt st t k with
  | some _ => (st, false)
  | none => (setAt st t k v (some ttl), true)

/-- Replace the value stored under a key while keeping its expiry
(the write path of `INCR` on an existing key). -/
def setKeep (st : Store α) (k : String) (v : α) : Store α :=
  match st with
  | [] => []
  | (k', e) :: tl =>
      if k' = k then (k', ⟨v, e.expiresAt⟩) :: setKeep tl k v
      else (k', e) :: setKeep tl k v

theorem getAt_removeKey_self (st : Store α) (t : Nat) (k : String) :
    getAt (removeKey st k) t k = none := by
  induction st with
  | nil => rfl
  | cons hd tl ih =>
      by_cases hk : hd.1 = k
      · simpa [removeKey, hk] using ih
      · simpa [removeKey, getAt, hk] using ih

theorem getAt_removeKey_ne (st : Store α) (t : Nat) (k k' : String) (h : k ≠ k') :
    getAt (removeKey st k') t k = getAt st t k := by
  induction st with
  | nil => rfl
  | cons hd tl ih =>
      by_cases hk' : hd.1 = k'
      · have hk : hd.1 ≠ k := by rw [hk']; exact fun e => h e.symm
        have hne : ¬(k' = k) := fun e => h e.symm
        simp [removeKey, getAt, hk', hk, hne, ih]
      · simp [removeKey, getAt, hk', ih]

theorem getAt_setAt_self (st : Store α) (t t' : Nat) (k : String) (v : α)
    (ttl : Option Nat) :
    getAt (setAt st t k v ttl) t' k =
      if Entry.live ⟨v, ttl.map (t + ·)⟩ t' then some v else none := by
  simp [setAt, getAt]

theorem getAt_setAt_ne (st : Store α) (t t' : Nat) (k k' : String) (v : α)
    (ttl : Option Nat) (h : k ≠ k') :
    getAt (setAt st t k' v ttl) t' k = getAt st t' k := by
  have hne : k' ≠ k := fun e => h e.symm
  simp [setAt, getAt, hne, getAt_removeKey_ne st t' k k' h]

theorem getAt_delKey_self (st : Store α) (t : Nat) (k : String) :
    getAt (delKey st k) t k = none :=
  getAt_removeKey_self st t k

theorem getAt_delKey_ne (st : Store α) (t : Nat) (k k' : String) (h : k ≠ k') :
    getAt (delKey st k') t k = getAt st t k :=
  getAt_removeKey_ne st t k k' h

end Store

/-!
## Distributed lock (`docs/REDIS_USAGE.md`, `DistributedLock`)

The lock code runs against the raw client (`redisService.getClient()`); the
embedding models the connected client, its absence being covered by the
facade-level results.  `generateUniqueToken()` is modelled by passing the
fresh token as an argument.
-/

namespace DistributedLock

/-- `DistributedLock.acquireLock(resource, ttlSeconds)`: a conditional
create-if-absent write (`SET key token NX EX ttl`) of the fresh `token` under
`lock:<resource>`; returns the token when the reply was `'OK'`, `null`
otherwise. -/
def acquireLock (st : Store String) (t : Nat) (resource token : String) (ttl : Nat) :
    Store String × Option String :=
  let key := "lock:" ++ resource
  match Store.setNX st t key token ttl with
  | (st', true) => (st', some token)
  | (st', false) => (st', none)

/-- `DistributedLock.releaseLock(resource, token)`: the Lua compare-and-delete
script — `GET` the key, `DEL` it only when the stored value equals the
caller's token (an expired key reads as nil and is left alone); returns
whether the script replied `1`. -/
def releaseLock (st : Store String) (t : Nat) (resource token : String) :
    Store String × Bool :=
  let key := "lock:" ++ resource
  match Store.getAt st t key with
  | some v => if v = token then (Store.delKey st key, true) else (st, false)
  | none => (st, false)

/-- `DistributedLock.withLock(resource, operation, ttlSeconds)`: acquire,
run the operation inside `try`, release in `finally`, and rethrow the
operation's outcome.  The operation's behaviour is its outcome
(`.ok`/`.error`); it does not touch the lock store (the documented usage runs
against the database). -/
def withLock {α : Type} (st : Store String) (t : Nat) (resource token : String)
    (operation : Except JsError α) (ttl : Nat) :
    Except JsError α × Store String :=
  match acquireLock st t resource token ttl with
  | (st1, none) => (.error .lockContentionError, st1)
  | (st1, some tok) =>
      let result := operation
      let (st2, _) := releaseLock st1 t resource tok
      (result, st2)

end DistributedLock

/-- `C3`: while `lock:<resource>` holds token `t0`, `releaseLock` with a
different token leaves the store unchanged and returns `false`; with the
matching token it deletes the entry and returns `true` — so the entry is
deleted only on a token match. -/
theorem C3_release_is_compare_and_delete
    (st : Store String) (t : Nat) (resource tok0 tok' : String)
    (h : Store.getAt st t ("lock:" ++ resource) = some tok0) :
    (tok' ≠ tok0 →
      DistributedLock.releaseLock st t resource tok' = (st, false)) ∧
    DistributedLock.releaseLock st t resource tok0 =
      (Store.delKey st ("lock:" ++ resource), true) ∧
    Store.getAt (DistributedLock.releaseLock st t resource tok0).1 t
      ("lock:" ++ resource) = none := by
  refine ⟨fun hne => ?_, ?_, ?_⟩
  · have : tok0 ≠ tok' := fun e => hne e.symm
    simp [DistributedLock.releaseLock, h, this]
  · simp [DistributedLock.releaseLock, h]
  · simp [DistributedLock.releaseLock, h, Store.getAt_delKey_self]

/-- Concrete run of `C3_release_is_compare_and_delete`: a lock on `r` holding
`tokA`, released with the wrong token `tokB` and with the right one. -/
theorem C3_release_is_compare_and_delete_witness :
    (DistributedLock.releaseLock [("lock:r", ⟨"tokA", some 100⟩)] 0 "r" "tokB" =
      ([("lock:r", ⟨"tokA", some 100⟩)], false)) ∧
    Store.getAt
      (DistributedLock.releaseLock [("lock:r", ⟨"tokA", some 100⟩)] 0 "r" "tokA").1 0
      ("lock:" ++ "r") = none := by
  have h := C3_release_is_compare_and_delete
    [("lock:r", ⟨"tokA", some 100⟩)] 0 "r" "tokA" "tokB" (by decide)
  exact ⟨h.1 (by decide), h.2.2⟩

/-- `C4`: `withLock` releases the acquired lock on every exit path — the final
store reads no live lock whether the operation resolved or threw, and the
operation's outcome is rethrown as the result; when the resource is already
locked the call answers with the contention error immediately, leaving the
store untouched and never running the operation. -/
theorem C4_withLock_releases_on_every_path {α : Type}
    (st : Store String) (t : Nat) (resource token : String) (ttl : Nat)
    (operation : Except JsError α) :
    (Store.getAt st t ("lock:" ++ resource) = none →
      (DistributedLock.withLock st t resource token operation ttl).1 = operation ∧
      Store.getAt (DistributedLock.withLock st t resource token operation ttl).2 t
        ("lock:" ++ resource) = none) ∧
    (∀ v, Store.getAt st t ("lock:" ++ resource) = some v →
      DistributedLock.withLock st t resource token operation ttl =
        (.error .lockContentionError, st)) := by
  constructor
  · intro hfree
    have hacq :
        DistributedLock.acquireLock st t resource token ttl =
          (Store.setAt st t ("lock:" ++ resource) token (some ttl), some token) := by
      simp [DistributedLock.acquireLock, Store.setNX, hfree]
    by_cases httl : 0 < ttl
    · have hlive : Store.getAt
          (Store.setAt st t ("lock:" ++ resource) token (some ttl)) t
          ("lock:" ++ resource) = some token := by
        simp [Store.getAt_setAt_self, Entry.live, httl]
      constructor
      · simp [DistributedLock.withLock, hacq, DistributedLock.releaseLock, hlive]
      · simp [DistributedLock.withLock, hacq, DistributedLock.releaseLock, hlive,
          Store.getAt_delKey_self]
    · have hzero : ttl = 0 := by omega
      have hdead : Store.getAt
          (Store.setAt st t ("lock:" ++ resource) token (some ttl)) t
          ("lock:" ++ resource) = none := by
        simp [Store.getAt_setAt_self, Entry.live, hzero]
      constructor
      · simp [DistributedLock.withLock, hacq, DistributedLock.releaseLock, hdead]
      · simp [DistributedLock.withLock, hacq, DistributedLock.releaseLock, hdead]
  · intro v hheld
    simp [DistributedLock.withLock, DistributedLock.acquireLock, Store.setNX, hheld]

/-- Concrete run of `C4_withLock_releases_on_every_path`: from an unlocked
store a throwing operation still leaves no live lock, and against a held lock
the call reports contention. -/
theorem C4_withLock_releases_on_every_path_witness :
    ((DistributedLock.withLock ([] : Store String) 0 "r" "tokA"
        (.error .typeError : Except JsError Nat) 30).1 = .error .typeError ∧
      Store.getAt (DistributedLock.withLock ([] : Store String) 0 "r" "tokA"
        (.error .typeError : Except JsError Nat) 30).2 0 ("lock:" ++ "r") = none) ∧
    DistributedLock.withLock [("lock:r", ⟨"tokB", some 100⟩)] 0 "r" "tokA"
        (.ok 7 : Except JsError Nat) 30 =
      (.error .lockContentionError, [("lock:r", ⟨"tokB", some 100⟩)]) := by
  refine ⟨?_, ?_⟩
  · exact (C4_withLock_releases_on_every_path [] 0 "r" "tokA" 30
      (.error .typeError)).1 (by decide)
  · exact (C4_withLock_releases_on_every_path [("lock:r", ⟨"tokB", some 100⟩)] 0 "r"
      "tokA" 30 (.ok 7)).2 "tokB" (by decide)

/-!
## Rate limiter (`src/unnamed/part_000`, `ExampleRedisUsage.checkRateLimit`)
-/

/-- `parseInt`: the value of the longest decimal-digit prefix.  On the
canonical counter strings this code stores (`"1"`, `"2"`, ...) this is exact;
a digitless string gives `0` where `parseInt` gives `NaN` (both fail the
`count >= limit` comparison the callers make). -/
def parseIntD (s : String) : Nat :=
  (s.data.takeWhile Char.isDigit).foldl (fun n c => n * 10 + (c.toNat - 48)) 0

namespace Store

/-- `INCR key` at time `t`: parses the stored integer and writes its
successor back, keeping the key's TTL; a missing (or expired) key is created
as `"1"` with no TTL.  Returns the new store and the new value. -/
def incr (st : Store String) (t : Nat) (k : String) : Store String × Nat :=
  match getAt st t k with
  | some s =>
      let n := parseIntD s + 1
      (setKeep st k (toString n), n)
  | none => (setAt st t k "1" none, 1)

theorem getAt_setKeep_self (st : Store String) (t : Nat) (k : String)
    (v cur : String) (h : getAt st t k = some cur) :
    getAt (setKeep st k v) t k = some v := by
  induction st with
  | nil => simp [getAt] at h
  | cons hd tl ih =>
      obtain ⟨k0, e0⟩ := hd
      by_cases hk : k0 = k
      · subst hk
        by_cases hl : Entry.live e0 t
        · have hl' : Entry.live ⟨v, e0.expiresAt⟩ t = true := by
            simpa [Entry.live] using hl
          simp [setKeep, getAt, hl']
        · rw [getAt] at h
          simp [hl] at h
      · rw [getAt] at h
        simp [hk] at h
        simp [setKeep, getAt, hk, ih h]

end Store

/-- The object returned by `checkRateLimit`.  The JavaScript literals carry
only `allowed` and `remaining`; `resetTime` records whether a time-to-reset
property is present at all (the code never sets one, so it is always
`none`). -/
structure RateResult where
  allowed : Bool
  remaining : Nat
  resetTime : Option Nat
deriving DecidableEq, Repr

namespace ExampleRedisUsage

/-- `ExampleRedisUsage.checkRateLimit(userId, limit, window)` run against a
connected backend: read the counter under `rate_limit:<userId>`; when absent,
initialise it to `"1"` with the window TTL and allow; when the parsed count
has reached the limit, reject (without touching the counter); otherwise
`INCR` the counter and allow with the remaining quota. -/
def checkRateLimit (st : Store String) (t : Nat) (userId : String)
    (limit window : Nat) : RateResult × Store String :=
  let key := "rate_limit:" ++ userId
  match Store.getAt st t key with
  | none =>
      ({ allowed := true, remaining := limit - 1, resetTime := none },
        Store.setAt st t key "1" (some window))
  | some current =>
      let count := parseIntD current
      if count ≥ limit then
        ({ allowed := false, remaining := 0, resetTime := none }, st)
      else
        ({ allowed := true, remaining := limit - count - 1, resetTime := none },
          (Store.incr st t key).1)

end ExampleRedisUsage

/-- `C5` fails as stated: with the counter for `u` standing at the limit `3`,
the call is rejected — but its result carries no time-to-reset at all
(`resetTime = none`, the object is just `{allowed: false, remaining: 0}`). -/
theorem C5_rejected_result_carries_no_reset_time :
    (ExampleRedisUsage.checkRateLimit [("rate_limit:u", ⟨"3", some 60⟩)] 1 "u" 3 60).1
      = { allowed := false, remaining := 0, resetTime := none } := by
  rfl

/-- `C5` as amended: the rejection decision agrees with the claim (reject
exactly when the stored count has reached the limit, i.e. when the would-be
post-increment value exceeds it), but a rejected call returns
`{allowed: false, remaining: 0}` with no time-to-reset and leaves the counter
unchanged; an allowed call returns the remaining quota and no reset field
either. -/
theorem C5_decision_and_result_shape
    (st : Store String) (t : Nat) (uid : String) (limit window : Nat) :
    (ExampleRedisUsage.checkRateLimit st t uid limit window).1.resetTime = none ∧
    (Store.getAt st t ("rate_limit:" ++ uid) = none →
      (ExampleRedisUsage.checkRateLimit st t uid limit window).1.allowed = true ∧
      (ExampleRedisUsage.checkRateLimit st t uid limit window).1.remaining =
        limit - 1) ∧
    (∀ cur, Store.getAt st t ("rate_limit:" ++ uid) = some cur →
      (limit ≤ parseIntD cur →
        ExampleRedisUsage.checkRateLimit st t uid limit window =
          ({ allowed := false, remaining := 0, resetTime := none }, st)) ∧
      (parseIntD cur < limit →
        (ExampleRedisUsage.checkRateLimit st t uid limit window).1 =
          { allowed := true, remaining := limit - parseIntD cur - 1,
            resetTime := none } ∧
        Store.getAt (ExampleRedisUsage.checkRateLimit st t uid limit window).2 t
          ("rate_limit:" ++ uid) = some (toString (parseIntD cur + 1)))) := by
  refine ⟨?_, ?_, ?_⟩
  · unfold ExampleRedisUsage.checkRateLimit
    cases h : Store.getAt st t ("rate_limit:" ++ uid) with
    | none => simp [h]
    | some cur =>
        by_cases hc : parseIntD cur ≥ limit <;> simp [h, hc]
  · intro h
    simp [ExampleRedisUsage.checkRateLimit, h]
  · intro cur h
    constructor
    · intro hge
      simp [ExampleRedisUsage.checkRateLimit, h, hge]
    · intro hlt
      have hnot : ¬ parseIntD cur ≥ limit := by omega
      constructor
      · simp [ExampleRedisUsage.checkRateLimit, h, hnot]
      · simp only [ExampleRedisUsage.checkRateLimit, h, hnot, ge_iff_le,
          if_neg hnot]
        simp [Store.incr, h, Store.getAt_setKeep_self st t _ _ cur h]

/-- Concrete run of `C5_decision_and_result_shape` at an empty store and at a
counter standing at the limit. -/
theorem C5_decision_and_result_shape_witness :
    (ExampleRedisUsage.checkRateLimit ([] : Store String) 0 "u" 3 60).1.allowed =
      true ∧
    ExampleRedisUsage.checkRateLimit [("rate_limit:u", ⟨"3", some 60⟩)] 1 "u" 3 60 =
      ({ allowed := false, remaining := 0, resetTime := none },
        [("rate_limit:u", ⟨"3", some 60⟩)]) := by
  refine ⟨((C5_decision_and_result_shape [] 0 "u" 3 60).2.1 (by decide)).1, ?_⟩
  exact ((C5_decision_and_result_shape [("rate_limit:u", ⟨"3", some 60⟩)] 1 "u" 3
    60).2.2 "3" (by decide)).1 (by decide)

/-- `C6`: from an empty store, four sequential `checkRateLimit(id, 3, 60)`
calls inside one window allow exactly the first three and reject the
fourth. -/
theorem C6_three_allowed_then_rejected :
    (ExampleRedisUsage.checkRateLimit [] 0 "user" 3 60).1.allowed = true ∧
    (ExampleRedisUsage.checkRateLimit
      (ExampleRedisUsage.checkRateLimit [] 0 "user" 3 60).2
      1 "user" 3 60).1.allowed = true ∧
    (ExampleRedisUsage.checkRateLimit
      (ExampleRedisUsage.checkRateLimit
        (ExampleRedisUsage.checkRateLimit [] 0 "user" 3 60).2
        1 "user" 3 60).2
      2 "user" 3 60).1.allowed = true ∧
    (ExampleRedisUsage.checkRateLimit
      (ExampleRedisUsage.checkRateLimit
        (ExampleRedisUsage.checkRateLimit
          (ExampleRedisUsage.checkRateLimit [] 0 "user" 3 60).2
          1 "user" 3 60).2
        2 "user" 3 60).2
      3 "user" 3 60).1.allowed = false := by
  exact ⟨rfl, rfl, rfl, rfl⟩

/-!
## Kafka service (`src/src/services/kafka.js`)
-/

namespace KafkaService

/-- The mutable fields of the `KafkaService` singleton that the claims
observe: whether `this.producer` / `this.consumer` have been assigned, and
the `isConnected` flag. -/
structure State where
  producer : Bool
  consumer : Bool
  isConnected : Bool
deriving DecidableEq, Repr

/-- The constructor: `producer = null`, `consumer = null`,
`isConnected = false`. -/
def initState : State := ⟨false, false, false⟩

/-- `connectProducer()`: assigns `this.producer`, then awaits its
`connect()` (outcome `ok`).  Success sets `isConnected = true`; failure sets
it to `false` in development mode and rethrows in production. -/
def connectProducer (s : State) (isDev ok : Bool) : Except JsError State :=
  let s := { s with producer := true }
  if ok then .ok { s with isConnected := true }
  else if isDev then .ok { s with isConnected := false }
  else .error .connectionError

/-- `connectConsumer(groupId)`: assigns `this.consumer`, then awaits its
`connect()`.  Neither branch ever touches `isConnected`. -/
def connectConsumer (s : State) (isDev ok : Bool) : Except JsError State :=
  let s := { s with consumer := true }
  if ok then .ok s
  else if isDev then .ok s
  else .error .connectionError

/-- `subscribe(topic, handler)` guard: it checks `!this.consumer` — not
`isConnected` — returning the dev no-op (`false` = did not subscribe) or
throwing; with a consumer present it proceeds (`true`). -/
def subscribeGuard (s : State) (isDev : Bool) : Except JsError Bool :=
  if !s.consumer then
    (if isDev then .ok false else .error .connectionError)
  else .ok true

/-- `disconnect()`: awaits the producer/consumer disconnects and resets
`isConnected` to `false` (the handles stay assigned). -/
def disconnect (s : State) : State :=
  { s with isConnected := false }

end KafkaService

/-- `C10`: `isConnected` reflects only the producer connection — a successful
`connectProducer` is the one operation that sets it to `true`;
`connectConsumer` never modifies it (even on success); `subscribe` guards on
the presence of the consumer rather than on `isConnected`; `disconnect`
resets it to `false`; and a process that only connected a consumer reports
`isConnected = false`. -/
theorem C10_isConnected_tracks_producer_only
    (s s' : KafkaService.State) (isDev ok : Bool) :
    (KafkaService.connectConsumer s isDev ok = .ok s' →
      s'.isConnected = s.isConnected ∧ s'.producer = s.producer) ∧
    KafkaService.connectProducer s isDev true =
      .ok { s with producer := true, isConnected := true } ∧
    (KafkaService.connectProducer s isDev false = .ok s' →
      s'.isConnected = false) ∧
    (KafkaService.disconnect s).isConnected = false ∧
    KafkaService.subscribeGuard
      { producer := s.producer, consumer := true, isConnected := false } isDev =
        .ok true ∧
    KafkaService.connectConsumer KafkaService.initState isDev true =
      .ok { producer := false, consumer := true, isConnected := false } := by
  refine ⟨?_, ?_, ?_, rfl, rfl, ?_⟩
  · intro h
    cases ok with
    | true =>
        simp [KafkaService.connectConsumer] at h
        simp [← h]
    | false =>
        cases isDev with
        | true =>
            simp [KafkaService.connectConsumer] at h
            simp [← h]
        | false =>
            simp [KafkaService.connectConsumer] at h
  · rfl
  · intro h
    cases isDev with
    | true =>
        simp [KafkaService.connectProducer] at h
        simp [← h]
    | false =>
        simp [KafkaService.connectProducer] at h
  · rfl

/-- Concrete run of `C10_isConnected_tracks_producer_only`: connecting only a
consumer (successfully) leaves `isConnected = false`. -/
theorem C10_isConnected_tracks_producer_only_witness :
    KafkaService.connectConsumer KafkaService.initState true true =
      .ok { producer := false, consumer := true, isConnected := false } ∧
    ({ producer := false, consumer := true,
        isConnected := false } : KafkaService.State).isConnected = false := by
  refine ⟨(C10_isConnected_tracks_producer_only KafkaService.initState
    { producer := false, consumer := true, isConnected := false } true true).2.2.2.2.2,
    ?_⟩
  exact ((C10_isConnected_tracks_producer_only KafkaService.initState
    { producer := false, consumer := true, isConnected := false } true
    true).1 (by rfl)).1

namespace KafkaService

/-- A delivered message as `eachMessage` sees it: the raw
`message.value.toString()` payload together with the outcome of
`JSON.parse` on it (`some p` when the payload decodes to `p`, `none` when
`JSON.parse` throws).  `α` is the type of decoded payloads. -/
structure Delivered (α : Type) where
  raw : String
  parsed : Option α

/-- The `eachMessage` callback registered by `subscribe(topic, onMessage)`:

```
try { const parsed = JSON.parse(value); await onMessage(parsed, ...) }
catch { await onMessage(value, ...) }
```

The handler receives either the decoded payload (`Sum.inl`) or the raw string
(`Sum.inr`).  The result pairs the callback's own outcome with the list of
arguments the handler was invoked with, in order. -/
def eachMessage {α : Type} (m : Delivered α)
    (onMessage : α ⊕ String → Except JsError Unit) :
    Except JsError Unit × List (α ⊕ String) :=
  match m.parsed with
  | some p =>
      match onMessage (Sum.inl p) with
      | .ok _ => (.ok (), [Sum.inl p])
      | .error _ => (onMessage (Sum.inr m.raw), [Sum.inl p, Sum.inr m.raw])
  | none => (onMessage (Sum.inr m.raw), [Sum.inr m.raw])

end KafkaService

/-- `C7` fails as stated: a handler that throws on the decoded message (and
returns normally on a string) is invoked twice for the single delivered
message `{"n":1}` — the bare `catch` around `onMessage(parsed, ...)` also
catches handler exceptions and re-invokes the handler with the raw payload,
so handler execution is not at-most-once per delivered message. -/
theorem C7_handler_can_run_twice_per_message :
    (KafkaService.eachMessage
      ({ raw := "\x7b\x22n\x22:1\x7d", parsed := some 1 } : KafkaService.Delivered Nat)
      (fun x => match x with
        | Sum.inl _ => .error .handlerError
        | Sum.inr _ => .ok ())).2.length = 2 := by
  rfl

/-- `C7` as amended: per delivered message the handler runs at most twice,
not at most once — when the payload decodes and the handler accepts it,
exactly once; when the handler throws on the decoded payload, the exception
is caught (without logging) and the handler is re-invoked with the raw
string, the callback's outcome being that second invocation's; when the
payload does not decode, the handler gets the raw string directly.  An
exception from a raw-string invocation is not caught and propagates out of
the callback. -/
theorem C7_eachMessage_retries_handler_on_raw {α : Type}
    (m : KafkaService.Delivered α)
    (onMessage : α ⊕ String → Except JsError Unit) :
    (KafkaService.eachMessage m onMessage).2.length ≤ 2 ∧
    (∀ p, m.parsed = some p →
      (onMessage (Sum.inl p) = .ok () →
        KafkaService.eachMessage m onMessage = (.ok (), [Sum.inl p])) ∧
      (∀ e, onMessage (Sum.inl p) = .error e →
        KafkaService.eachMessage m onMessage =
          (onMessage (Sum.inr m.raw), [Sum.inl p, Sum.inr m.raw]))) ∧
    (m.parsed = none →
      KafkaService.eachMessage m onMessage =
        (onMessage (Sum.inr m.raw), [Sum.inr m.raw])) := by
  refine ⟨?_, ?_, ?_⟩
  · unfold KafkaService.eachMessage
    cases m.parsed with
    | none => simp
    | some p => cases h : onMessage (Sum.inl p) <;> simp [h]
  · intro p hp
    constructor
    · intro hok
      simp [KafkaService.eachMessage, hp, hok]
    · intro e herr
      simp [KafkaService.eachMessage, hp, herr]
  · intro hp
    simp [KafkaService.eachMessage, hp]

/-- Concrete runs of `C7_eachMessage_retries_handler_on_raw`: an accepting
handler runs once; a handler that throws on the decoded payload is re-invoked
with the raw string. -/
theorem C7_eachMessage_retries_handler_on_raw_witness :
    KafkaService.eachMessage
        ({ raw := "5", parsed := some 5 } : KafkaService.Delivered Nat)
        (fun _ => .ok ()) = (.ok (), [Sum.inl 5]) ∧
    KafkaService.eachMessage
        ({ raw := "5", parsed := some 5 } : KafkaService.Delivered Nat)
        (fun x => match x with
          | Sum.inl _ => .error .handlerError
          | Sum.inr _ => .ok ()) = (.ok (), [Sum.inl 5, Sum.inr "5"]) := by
  constructor
  · exact ((C7_eachMessage_retries_handler_on_raw
      ({ raw := "5", parsed := some 5 } : KafkaService.Delivered Nat)
      (fun _ => .ok ())).2.1 5 rfl).1 rfl
  · exact ((C7_eachMessage_retries_handler_on_raw
      ({ raw := "5", parsed := some 5 } : KafkaService.Delivered Nat)
      (fun x => match x with
        | Sum.inl _ => .error .handlerError
        | Sum.inr _ => .ok ())).2.1 5 rfl).2 .handlerError rfl

/-!
## Session engine (`src/src/examples/user-session-example.js`)

The session manager runs over connected services: the Redis client is the
store above, and `kafkaService.send('user.events', e)` with a connected
producer appends `e` to the topic, modelled as a growing event list.
`JSON.stringify`/`JSON.parse` of the fixed-shape session object round-trip,
so a serialized session is stored as a `SVal.json` value and parsing a
non-object payload fails (handled by `getSession`'s `catch`).
ISO timestamps and `Date.now()` values both denote the call's instant `t`.
-/

/-- The metadata `loginUser` receives. -/
structure LoginData where
  ipAddress : String
  userAgent : String
deriving DecidableEq, Repr

/-- The session object built by `loginUser` (and extended by `logoutUser`
with a `logoutTime` property, absent until then). -/
structure SessionData where
  userId : String
  sessionId : String
  loginTime : Nat
  ipAddress : String
  userAgent : String
  isActive : Bool
  logoutTime : Option Nat
deriving DecidableEq, Repr

/-- A value the session manager stores in the cache: a serialized session
object, a plain string (the active-session pointer), or a set
(`sAdd` on the daily-active-users key). -/
inductive SVal where
  | json (d : SessionData)
  | raw (s : String)
  | sset (members : List String)
deriving DecidableEq, Repr

/-- An event published on the `user.events` topic. -/
structure KEvent where
  type : String
  userId : String
  sessionId : String
  timestamp : Nat
  sessionDuration : Option Int
  metadata : Option LoginData
deriving DecidableEq, Repr

/-- `kafkaService.send('user.events', e)` with a connected producer: append
to the topic. -/
def kafkaSend (events : List KEvent) (e : KEvent) : List KEvent :=
  events ++ [e]

namespace Store

/-- `SADD key member` at time `t`: adds the member to the set under the key,
creating the set when the key is missing or expired; no TTL change. -/
def sAdd (st : Store SVal) (t : Nat) (k m : String) : Store SVal :=
  match getAt st t k with
  | some (SVal.sset xs) => setKeep st k (SVal.sset (if m ∈ xs then xs else xs ++ [m]))
  | _ => setAt st t k (SVal.sset [m]) none

theorem getAt_setKeep_ne {α : Type} (st : Store α) (t : Nat) (k km : String)
    (v : α) (h : k ≠ km) :
    getAt (setKeep st km v) t k = getAt st t k := by
  induction st with
  | nil => rfl
  | cons hd tl ih =>
      obtain ⟨k0, e0⟩ := hd
      by_cases hm : k0 = km
      · subst hm
        have hk : ¬(k0 = k) := fun e => h e.symm
        simp [setKeep, getAt, hk, ih]
      · by_cases hk : k0 = k
        · simp [setKeep, getAt, hm, hk, h]
        · simp [setKeep, getAt, hm, hk, ih]

theorem getAt_sAdd_ne (st : Store SVal) (t t' : Nat) (k km m : String)
    (h : k ≠ km) :
    getAt (sAdd st t km m) t' k = getAt st t' k := by
  unfold sAdd
  cases hg : getAt st t km with
  | none => simp [getAt_setAt_ne st t t' k km _ _ h]
  | some v =>
      cases v with
      | json d => simp [getAt_setAt_ne st t t' k km _ _ h]
      | raw s => simp [getAt_setAt_ne st t t' k km _ _ h]
      | sset xs => simp [getAt_setKeep_ne st t' k km _ h]

end Store

/-- The `session:<sessionId>` key differs from every
`user:<userId>:active_session` key. -/
theorem sessionKey_ne_activeKey (sid uid : String) :
    ("session:" ++ sid) ≠ ("user:" ++ uid ++ ":active_session") := by
  intro h
  have hd := congrArg (fun s => s.data.head?) h
  simp only [String.data_append] at hd
  simp at hd

/-- The `session:<sessionId>` key differs from every
`daily_active_users:<date>` key. -/
theorem sessionKey_ne_dailyKey (sid d : String) :
    ("session:" ++ sid) ≠ ("daily_active_users:" ++ d) := by
  intro h
  have hd := congrArg (fun s => s.data.head?) h
  simp only [String.data_append] at hd
  simp at hd

namespace UserSessionManager

/-- `UserSessionManager.loginUser(userId, loginData)` at time `t`: build the
session id and object, store it under `session:<id>` for 24 h, point
`user:<userId>:active_session` at it for 24 h, publish `USER_LOGIN`, and add
the user to today's active-user set.  Returns the session id with the new
store and topic. -/
def loginUser (st : Store SVal) (events : List KEvent) (t : Nat)
    (userId : String) (loginData : LoginData) :
    String × Store SVal × List KEvent :=
  let sessionId := "session_" ++ userId ++ "_" ++ toString t
  let sessionData : SessionData :=
    { userId := userId, sessionId := sessionId, loginTime := t,
      ipAddress := loginData.ipAddress, userAgent := loginData.userAgent,
      isActive := true, logoutTime := none }
  let st := Store.setAt st t ("session:" ++ sessionId) (SVal.json sessionData)
    (some 86400)
  let st := Store.setAt st t ("user:" ++ userId ++ ":active_session")
    (SVal.raw sessionId) (some 86400)
  let events := kafkaSend events
    { type := "USER_LOGIN", userId := userId, sessionId := sessionId,
      timestamp := t, sessionDuration := none, metadata := some loginData }
  let st := Store.sAdd st t ("daily_active_users:" ++ toString (t / 86400000))
    userId
  (sessionId, st, events)

/-- `UserSessionManager.getSession(sessionId)` at time `t`: read and parse
`session:<sessionId>`; a missing/expired key or an unparseable payload gives
`null`. -/
def getSession (st : Store SVal) (t : Nat) (sessionId : String) :
    Option SessionData :=
  match Store.getAt st t ("session:" ++ sessionId) with
  | some (SVal.json d) => some d
  | some _ => none
  | none => none

/-- `UserSessionManager.logoutUser(sessionId)` at time `t`: load the session
(`Session not found` if absent), mark it inactive with `logoutTime` and a 1 h
TTL, delete the active-session pointer, and publish `USER_LOGOUT` carrying
`logoutTime - loginTime` as the session duration. -/
def logoutUser (st : Store SVal) (events : List KEvent) (t : Nat)
    (sessionId : String) :
    Except JsError (Bool × Store SVal × List KEvent) :=
  match getSession st t sessionId with
  | none => .error .sessionNotFound
  | some sessionData =>
      let sessionData' :=
        { sessionData with isActive := false, logoutTime := some t }
      let st := Store.setAt st t ("session:" ++ sessionId)
        (SVal.json sessionData') (some 3600)
      let st := Store.delKey st
        ("user:" ++ sessionData.userId ++ ":active_session")
      let events := kafkaSend events
        { type := "USER_LOGOUT", userId := sessionData.userId,
          sessionId := sessionId, timestamp := t,
          sessionDuration :=
            some ((t : Int) - (sessionData.loginTime : Int)),
          metadata := none }
      .ok (true, st, events)

end UserSessionManager

namespace UserSessionManager

theorem getSession_after_login (st : Store SVal) (ev : List KEvent)
    (t1 tq : Nat) (uid : String) (ld : LoginData) (h : tq < t1 + 86400) :
    getSession (loginUser st ev t1 uid ld).2.1 tq (loginUser st ev t1 uid ld).1 =
      some { userId := uid, sessionId := "session_" ++ uid ++ "_" ++ toString t1,
             loginTime := t1, ipAddress := ld.ipAddress,
             userAgent := ld.userAgent, isActive := true, logoutTime := none } := by
  simp only [loginUser, getSession]
  rw [Store.getAt_sAdd_ne _ _ _ _ _ _ (sessionKey_ne_dailyKey _ _),
      Store.getAt_setAt_ne _ _ _ _ _ _ _ (sessionKey_ne_activeKey _ _),
      Store.getAt_setAt_self]
  simp [Entry.live, h]

theorem login_then_logout (st : Store SVal) (ev : List KEvent)
    (t1 t2 : Nat) (uid : String) (ld : LoginData) (hwin : t2 < t1 + 86400) :
    logoutUser (loginUser st ev t1 uid ld).2.1 (loginUser st ev t1 uid ld).2.2
        t2 (loginUser st ev t1 uid ld).1 =
      .ok (true,
        Store.delKey
          (Store.setAt (loginUser st ev t1 uid ld).2.1 t2
            ("session:" ++ (loginUser st ev t1 uid ld).1)
            (SVal.json
              { userId := uid,
                sessionId := "session_" ++ uid ++ "_" ++ toString t1,
                loginTime := t1, ipAddress := ld.ipAddress,
                userAgent := ld.userAgent, isActive := false,
                logoutTime := some t2 }) (some 3600))
          ("user:" ++ uid ++ ":active_session"),
        (loginUser st ev t1 uid ld).2.2 ++
          [{ type := "USER_LOGOUT", userId := uid,
             sessionId := (loginUser st ev t1 uid ld).1, timestamp := t2,
             sessionDuration := some ((t2 : Int) - (t1 : Int)),
             metadata := none }]) := by
  have hg := getSession_after_login st ev t1 t2 uid ld hwin
  simp only [logoutUser, hg, kafkaSend]

theorem getSession_set_then_del (s0 : Store SVal) (t : Nat) (sid u : String)
    (d : SessionData) :
    getSession
        (Store.delKey (Store.setAt s0 t ("session:" ++ sid) (SVal.json d) (some 3600))
          ("user:" ++ u ++ ":active_session")) t sid = some d := by
  have hlt : t < t + 3600 := by omega
  simp only [getSession]
  rw [Store.getAt_delKey_ne _ _ _ _ (sessionKey_ne_activeKey _ _),
      Store.getAt_setAt_self]
  simp [Entry.live, hlt]

end UserSessionManager

/-- `C8`: `loginUser` returns a session id whose `getSession` shows
`isActive = true`; a later `logoutUser` (within the 24 h session TTL)
succeeds, after which `getSession` shows `isActive = false`, the published
`USER_LOGOUT` event carries the computed session duration
`t2 - t1`, which is non-negative; and `logoutUser` of an absent or expired
session fails with the session-not-found error. -/
theorem C8_login_logout_roundtrip
    (st : Store SVal) (ev : List KEvent) (t1 t2 : Nat) (uid : String)
    (ld : LoginData) (h12 : t1 ≤ t2) (hwin : t2 < t1 + 86400) :
    (UserSessionManager.getSession (UserSessionManager.loginUser st ev t1 uid ld).2.1
        t1 (UserSessionManager.loginUser st ev t1 uid ld).1).map
      SessionData.isActive = some true ∧
    (∃ st' : Store SVal,
      UserSessionManager.logoutUser (UserSessionManager.loginUser st ev t1 uid ld).2.1
          (UserSessionManager.loginUser st ev t1 uid ld).2.2 t2
          (UserSessionManager.loginUser st ev t1 uid ld).1 =
        .ok (true, st',
          (UserSessionManager.loginUser st ev t1 uid ld).2.2 ++
            [{ type := "USER_LOGOUT", userId := uid,
               sessionId := (UserSessionManager.loginUser st ev t1 uid ld).1,
               timestamp := t2,
               sessionDuration := some ((t2 : Int) - (t1 : Int)),
               metadata := none }]) ∧
      (UserSessionManager.getSession st' t2
          (UserSessionManager.loginUser st ev t1 uid ld).1).map
        SessionData.isActive = some false) ∧
    0 ≤ (t2 : Int) - (t1 : Int) ∧
    (∀ (st0 : Store SVal) (ev0 : List KEvent) (t0 : Nat) (sid0 : String),
      UserSessionManager.getSession st0 t0 sid0 = none →
      UserSessionManager.logoutUser st0 ev0 t0 sid0 = .error .sessionNotFound) := by
  refine ⟨?_, ?_, ?_, ?_⟩
  · have h1 : t1 < t1 + 86400 := by omega
    rw [UserSessionManager.getSession_after_login st ev t1 t1 uid ld h1]
    rfl
  · refine ⟨_, UserSessionManager.login_then_logout st ev t1 t2 uid ld hwin, ?_⟩
    rw [UserSessionManager.getSession_set_then_del]
    rfl
  · omega
  · intro st0 ev0 t0 sid0 h0
    simp [UserSessionManager.logoutUser, h0]

/-- Concrete run of `C8_login_logout_roundtrip`: user `u1` logs in at `t = 0`,
the stored session is active; logging out a session id that was never stored
fails with the session-not-found error. -/
theorem C8_login_logout_roundtrip_witness :
    (UserSessionManager.getSession
        (UserSessionManager.loginUser [] [] 0 "u1" ⟨"ip", "ua"⟩).2.1 0
        (UserSessionManager.loginUser [] [] 0 "u1" ⟨"ip", "ua"⟩).1).map
      SessionData.isActive = some true ∧
    UserSessionManager.logoutUser [] [] 0 "missing" = .error .sessionNotFound := by
  have h := C8_login_logout_roundtrip [] [] 0 5 "u1" ⟨"ip", "ua"⟩ (by omega) (by omega)
  exact ⟨h.1, h.2.2.2 [] [] 0 "missing" rfl⟩
